import Mathlib

/-!
Shallow embedding of the AXI SPI Engine offload PWM trigger driver
(drivers/iio/trigger/axi-spi-engine-offload-pwm-trigger.c).

Pure computations (rate control, parsing) are embedded as Lean functions on
Nat/Int; the stateful kernel interactions (device discovery, devm actions,
probe) are embedded as functions from an explicit environment/state record to
an outcome record that also carries the observable side effects (queries
performed, release actions registered, immediate reference puts).
-/

set_option autoImplicit false

namespace AxiOffloadPwm

/-! ### Errno constants (negative values as returned by the C code) -/

def EINVAL : Int := 22
def ENOMEM : Int := 12
def EPROBE_DEFER : Int := 517
def ERANGE : Int := 34

def NSEC_PER_SEC : Nat := 1000000000

/-- Kernel macro `DIV_ROUND_UP(n, d) = (n + d - 1) / d` (ceiling division). -/
def DIV_ROUND_UP (n d : Nat) : Nat := (n + d - 1) / d

/-- Kernel macro `DIV_ROUND_CLOSEST_ULL(x, d) = (x + d / 2) / d` (round half up). -/
def DIV_ROUND_CLOSEST_ULL (x d : Nat) : Nat := (x + d / 2) / d

/-! ### Pulse source (PWM) state -/

/-- Observable state of the PWM device: last configured duty/period and whether
the output is enabled. -/
structure PwmState where
  dutyNs : Nat
  periodNs : Nat
  enabled : Bool
deriving DecidableEq, Repr

/-- `pwm_config(pwm, duty_ns, period_ns)`: a single call applying duty and
period together. -/
def pwm_config (pwm : PwmState) (duty period : Nat) : PwmState :=
  { pwm with dutyNs := duty, periodNs := period }

/-- `pwm_get_period` -/
def pwm_get_period (pwm : PwmState) : Nat := pwm.periodNs

/-! ### Driver state (`struct axi_offload_pwm_trigger`) -/

/-- `struct axi_offload_pwm_trigger`: DMA buffer handle plus owned PWM. -/
structure AxiOffloadPwmTriggerSt where
  buffer : Nat
  pwm : PwmState
deriving DecidableEq, Repr

/-- `axi_spi_engine_offload_set_samp_freq`: reject 0 Hz, otherwise configure
the PWM with `period_ns = DIV_ROUND_UP(NSEC_PER_SEC, requested_hz)` and the
fixed duty of 10 ns in one `pwm_config` call. -/
def axi_spi_engine_offload_set_samp_freq (st : AxiOffloadPwmTriggerSt)
    (requested_hz : Nat) : Except Int AxiOffloadPwmTriggerSt :=
  if requested_hz = 0 then
    .error (-EINVAL)
  else
    .ok { st with pwm := pwm_config st.pwm 10 (DIV_ROUND_UP NSEC_PER_SEC requested_hz) }

/-- `axi_spi_engine_offload_pwm_trigger_get_rate`: 0 when the period is 0,
otherwise `DIV_ROUND_CLOSEST_ULL(NSEC_PER_SEC, period_ns)`. -/
def axi_spi_engine_offload_pwm_trigger_get_rate (st : AxiOffloadPwmTriggerSt) : Nat :=
  if pwm_get_period st.pwm ≠ 0 then
    DIV_ROUND_CLOSEST_ULL NSEC_PER_SEC (pwm_get_period st.pwm)
  else
    0

/-! ### Rate attribute store (`sampling_frequency_store`) -/

/-- Numeric value of a list of decimal digit characters. -/
def digitsVal (ds : List Char) : Nat :=
  ds.foldl (fun a c => a * 10 + (c.toNat - 48)) 0

/-- `kstrtou32(buf, 10, &val)`: an optional leading plus sign, then at least
one decimal digit, then optionally a single trailing newline and nothing else.
No digits or trailing garbage is `-EINVAL`; a value that does not fit in u32
is `-ERANGE`. -/
def kstrtou32 (s : List Char) : Except Int Nat :=
  let s1 := match s with
    | '+' :: rest => rest
    | _ => s
  let ds := s1.takeWhile Char.isDigit
  let rest := s1.dropWhile Char.isDigit
  if ds.isEmpty then
    .error (-EINVAL)
  else if rest ≠ [] ∧ rest ≠ ['\n'] then
    .error (-EINVAL)
  else if digitsVal ds ≥ 2 ^ 32 then
    .error (-ERANGE)
  else
    .ok (digitsVal ds)

/-- `sampling_frequency_store`: parse the written string with `kstrtou32`,
then call `axi_spi_engine_offload_set_samp_freq`; on success return the
length written. Returns the result together with the (possibly unchanged)
driver state. -/
def sampling_frequency_store (st : AxiOffloadPwmTriggerSt) (buf : List Char) :
    Except Int Nat × AxiOffloadPwmTriggerSt :=
  match kstrtou32 buf with
  | .error e => (.error e, st)
  | .ok val =>
    match axi_spi_engine_offload_set_samp_freq st val with
    | .error e => (.error e, st)
    | .ok st1 => (.ok buf.length, st1)

/-! ### Triggers and IIO devices -/

/-- Identity of a `struct iio_trigger_ops` pointer: either the address of this
driver's `axi_offload_pwm_trigger_ops`, or some foreign ops table. -/
inductive TriggerOpsKind where
  | axiOffloadPwmTriggerOps
  | foreignOps
deriving DecidableEq, Repr

/-- A `struct iio_trigger`: identity, the ops pointer it carries, and its
reference count. -/
structure IioTrigger where
  id : Nat
  ops : TriggerOpsKind
  refcount : Nat
deriving DecidableEq, Repr

/-- `iio_trigger_get`: take a reference; returns the same trigger. -/
def iio_trigger_get (t : IioTrigger) : IioTrigger :=
  { t with refcount := t.refcount + 1 }

/-- `iio_trigger_put`: drop a reference. -/
def iio_trigger_put (t : IioTrigger) : IioTrigger :=
  { t with refcount := t.refcount - 1 }

/-- `axi_spi_engine_offload_pwm_trigger_release(trig)`: the devm release
action, which just does `iio_trigger_put(trig)`. -/
def axi_spi_engine_offload_pwm_trigger_release (t : IioTrigger) : IioTrigger :=
  iio_trigger_put t

/-- iio.h mode flag `INDIO_BUFFER_HARDWARE`. -/
def INDIO_BUFFER_HARDWARE : Nat := 8

/-- iio.h mode flag `INDIO_HARDWARE_TRIGGERED`. -/
def INDIO_HARDWARE_TRIGGERED : Nat := 32

/-- The consumer `struct iio_dev` fields this driver touches. -/
structure IioDev where
  modes : Nat
  trig : Option IioTrigger
  buffer : Option Nat
deriving DecidableEq, Repr

/-- `iio_device_attach_buffer(indio_dev, buffer)`. -/
def iio_device_attach_buffer (d : IioDev) (buf : Nat) : IioDev × Int :=
  ({ d with buffer := some buf }, 0)

/-- `axi_spi_engine_offload_pwm_trigger_setup(indio_dev, trig)`: re-check the
ops pointer, then enable hardware-triggered buffered modes, take a reference
on the trigger and assign it, and attach the driver state's buffer. `st` is
the drvdata of `trig` (fetched before the type check, used only after). -/
def axi_spi_engine_offload_pwm_trigger_setup (d : IioDev) (trig : IioTrigger)
    (st : AxiOffloadPwmTriggerSt) : IioDev × Int :=
  if trig.ops ≠ .axiOffloadPwmTriggerOps then
    (d, -EINVAL)
  else
    let d1 : IioDev :=
      { d with
        modes := d.modes ||| (INDIO_BUFFER_HARDWARE ||| INDIO_HARDWARE_TRIGGERED),
        trig := some (iio_trigger_get trig) }
    iio_device_attach_buffer d1 st.buffer

/-- `axi_offload_pwm_trigger_validate_device`: unconditionally `-EINVAL`, so
the trigger can never be assigned through the generic sysfs path. -/
def axi_offload_pwm_trigger_validate_device (_trig : IioTrigger)
    (_indio_dev : IioDev) : Int :=
  -EINVAL

/-! ### Discovery (`devm_axi_spi_engine_offload_pwm_trigger_get_optional`) -/

/-- The external lookups the discovery path can perform, in order. -/
inductive QueryKind where
  | findRef
  | busLookup
  | registryQuery
  | devmAdd
deriving DecidableEq, Repr

/-- Environment for a discovery call: what each external collaborator would
answer. `findReference` models `fwnode_find_reference` (fwnode handle or
`ERR_PTR`), `busFindDevice` models `bus_find_device_by_fwnode` (`ERR_PTR`,
`NULL`, or a device), `registryTrigger` models
`iio_trigger_acquire_by_parent` (`NULL` or a trigger whose reference count is
already elevated by the acquire), `devmAddOk` models whether
`devm_add_action_or_reset` succeeds. -/
structure DiscoveryEnv where
  propertyPresent : Bool
  findReference : Except Int Nat
  busFindDevice : Except Int (Option Nat)
  registryTrigger : Option IioTrigger
  devmAddOk : Bool

/-- Outcome of a discovery call: the returned pointer (`.ok none` is `NULL`,
`.error e` is `ERR_PTR(e)`), the release actions registered on the consumer
device, the puts executed immediately by `devm_add_action_or_reset` on
registration failure, and the trace of external lookups performed. -/
structure DiscoveryOutcome where
  result : Except Int (Option IioTrigger)
  releaseActions : List IioTrigger
  immediatePuts : List IioTrigger
  trace : List QueryKind
deriving Repr

/-- `devm_axi_spi_engine_offload_pwm_trigger_get_optional(dev)`. -/
def devm_axi_spi_engine_offload_pwm_trigger_get_optional (env : DiscoveryEnv) :
    DiscoveryOutcome :=
  if !env.propertyPresent then
    ⟨.ok none, [], [], []⟩
  else
    match env.findReference with
    | .error e => ⟨.error e, [], [], [.findRef]⟩
    | .ok _offload =>
      match env.busFindDevice with
      | .error e => ⟨.error e, [], [], [.findRef, .busLookup]⟩
      | .ok none => ⟨.error (-EPROBE_DEFER), [], [], [.findRef, .busLookup]⟩
      | .ok (some _offload_dev) =>
        match env.registryTrigger with
        | none =>
          ⟨.error (-EPROBE_DEFER), [], [], [.findRef, .busLookup, .registryQuery]⟩
        | some trig =>
          if env.devmAddOk then
            if trig.ops ≠ .axiOffloadPwmTriggerOps then
              ⟨.error (-EINVAL), [trig], [],
               [.findRef, .busLookup, .registryQuery, .devmAdd]⟩
            else
              ⟨.ok (some trig), [trig], [],
               [.findRef, .busLookup, .registryQuery, .devmAdd]⟩
          else
            ⟨.error (-ENOMEM), [], [trig],
             [.findRef, .busLookup, .registryQuery, .devmAdd]⟩

/-- Consumer teardown: the devm infrastructure runs every registered release
action, i.e. `axi_spi_engine_offload_pwm_trigger_release` on each held
trigger. -/
def runConsumerTeardown (acts : List IioTrigger) : List IioTrigger :=
  acts.map axi_spi_engine_offload_pwm_trigger_release

/-! ### Probe (`axi_offload_pwm_trigger_probe`) -/

/-- Environment for a probe call: what each external allocation/operation
would answer. A fresh PWM starts unconfigured (duty 0, period 0, disabled). -/
structure ProbeEnv where
  kzallocOk : Bool
  pwmGet : Except Int Unit
  bufferAlloc : Except Int Nat
  triggerAllocOk : Bool
  pwmEnableResult : Int
  devmAddOk : Bool
  registerResult : Int

/-- Outcome of a probe call: return value, final driver state (when the PWM
was obtained), and whether `devm_iio_trigger_register` completed. -/
structure ProbeOutcome where
  result : Int
  st : Option AxiOffloadPwmTriggerSt
  triggerRegistered : Bool
deriving DecidableEq, Repr

/-- `axi_offload_pwm_trigger_probe(pdev)`: allocate state, get the PWM,
allocate the DMA buffer, allocate the trigger, set the default 1000 Hz
sampling frequency, enable the PWM, register the disable action, and finally
register the trigger. -/
def axi_offload_pwm_trigger_probe (env : ProbeEnv) : ProbeOutcome :=
  if !env.kzallocOk then
    ⟨-ENOMEM, none, false⟩
  else
    match env.pwmGet with
    | .error e => ⟨e, none, false⟩
    | .ok _ =>
      let pwm0 : PwmState := ⟨0, 0, false⟩
      match env.bufferAlloc with
      | .error e => ⟨e, some ⟨0, pwm0⟩, false⟩
      | .ok buf =>
        if !env.triggerAllocOk then
          ⟨-ENOMEM, some ⟨buf, pwm0⟩, false⟩
        else
          match axi_spi_engine_offload_set_samp_freq ⟨buf, pwm0⟩ 1000 with
          | .error e => ⟨e, some ⟨buf, pwm0⟩, false⟩
          | .ok st1 =>
            if env.pwmEnableResult ≠ 0 then
              ⟨env.pwmEnableResult, some st1, false⟩
            else
              let st2 : AxiOffloadPwmTriggerSt :=
                { st1 with pwm := { st1.pwm with enabled := true } }
              if !env.devmAddOk then
                ⟨-ENOMEM, some st2, false⟩
              else
                ⟨env.registerResult, some st2, env.registerResult == 0⟩

/-! ### Theorems -/

/-- C9: for every trigger and every consumer device,
`axi_offload_pwm_trigger_validate_device` returns `-EINVAL`, so assigning this
trigger through the generic user-settable trigger interface is always
rejected regardless of inputs. -/
theorem validate_device_always_rejects (t : IioTrigger) (d : IioDev) :
    axi_offload_pwm_trigger_validate_device t d = -EINVAL := rfl

/-- C7: when the consumer device's configuration lacks the offload-reference
property, discovery returns `NULL` (never an error), registers nothing, and
performs no reference resolution, bus lookup, or registry query. -/
theorem discovery_absent_property_returns_null (env : DiscoveryEnv)
    (h : env.propertyPresent = false) :
    devm_axi_spi_engine_offload_pwm_trigger_get_optional env =
      ⟨.ok none, [], [], []⟩ := by
  simp [devm_axi_spi_engine_offload_pwm_trigger_get_optional, h]

theorem discovery_absent_property_returns_null_witness :
    devm_axi_spi_engine_offload_pwm_trigger_get_optional
      ⟨false, .ok 0, .ok none, none, true⟩ = ⟨.ok none, [], [], []⟩ :=
  discovery_absent_property_returns_null ⟨false, .ok 0, .ok none, none, true⟩ rfl

/-- C1: when the reference is present and resolves, the owner device is found
on the bus and owns a registered trigger, and the release-action registration
succeeds, but the trigger's ops pointer is not this driver's
`axi_offload_pwm_trigger_ops`, discovery returns `ERR_PTR(-EINVAL)`. -/
theorem discovery_foreign_ops_returns_einval (env : DiscoveryEnv)
    (w d : Nat) (t : IioTrigger)
    (hp : env.propertyPresent = true)
    (hr : env.findReference = .ok w)
    (hb : env.busFindDevice = .ok (some d))
    (ht : env.registryTrigger = some t)
    (hd : env.devmAddOk = true)
    (hops : t.ops ≠ .axiOffloadPwmTriggerOps) :
    (devm_axi_spi_engine_offload_pwm_trigger_get_optional env).result =
      .error (-EINVAL) := by
  simp [devm_axi_spi_engine_offload_pwm_trigger_get_optional,
    hp, hr, hb, ht, hd, hops]

theorem discovery_foreign_ops_returns_einval_witness :
    (devm_axi_spi_engine_offload_pwm_trigger_get_optional
      ⟨true, .ok 7, .ok (some 3), some ⟨1, .foreignOps, 1⟩, true⟩).result =
      .error (-EINVAL) :=
  discovery_foreign_ops_returns_einval
    ⟨true, .ok 7, .ok (some 3), some ⟨1, .foreignOps, 1⟩, true⟩
    7 3 ⟨1, .foreignOps, 1⟩ rfl rfl rfl rfl rfl (by decide)

/-- C2: when the reference is present and resolves but either the owning
provider device is not found on the bus, or it is found and no trigger owned
by it exists in the registry, discovery returns `ERR_PTR(-EPROBE_DEFER)`. -/
theorem discovery_missing_provider_defers (env : DiscoveryEnv) (w : Nat)
    (hp : env.propertyPresent = true)
    (hr : env.findReference = .ok w)
    (hdefer : env.busFindDevice = .ok none ∨
      (∃ d, env.busFindDevice = .ok (some d) ∧ env.registryTrigger = none)) :
    (devm_axi_spi_engine_offload_pwm_trigger_get_optional env).result =
      .error (-EPROBE_DEFER) := by
  rcases hdefer with hb | ⟨d, hb, ht⟩
  · simp [devm_axi_spi_engine_offload_pwm_trigger_get_optional, hp, hr, hb]
  · simp [devm_axi_spi_engine_offload_pwm_trigger_get_optional, hp, hr, hb, ht]

theorem discovery_missing_provider_defers_witness :
    (devm_axi_spi_engine_offload_pwm_trigger_get_optional
      ⟨true, .ok 7, .ok none, none, true⟩).result = .error (-EPROBE_DEFER) ∧
    (devm_axi_spi_engine_offload_pwm_trigger_get_optional
      ⟨true, .ok 7, .ok (some 3), none, true⟩).result = .error (-EPROBE_DEFER) :=
  ⟨discovery_missing_provider_defers ⟨true, .ok 7, .ok none, none, true⟩ 7
      rfl rfl (Or.inl rfl),
   discovery_missing_provider_defers ⟨true, .ok 7, .ok (some 3), none, true⟩ 7
      rfl rfl (Or.inr ⟨3, rfl, rfl⟩)⟩

/-- C8: whenever discovery acquires a trigger from the registry and the
release registration succeeds, the release action holding that trigger is
registered on the consumer device — also on the path that then returns
`-EINVAL` for a foreign ops pointer — and consumer teardown runs it,
decrementing the trigger's reference count. -/
theorem discovery_registers_release_action (env : DiscoveryEnv)
    (w d : Nat) (t : IioTrigger)
    (hp : env.propertyPresent = true)
    (hr : env.findReference = .ok w)
    (hb : env.busFindDevice = .ok (some d))
    (ht : env.registryTrigger = some t)
    (hd : env.devmAddOk = true) :
    (devm_axi_spi_engine_offload_pwm_trigger_get_optional env).releaseActions =
      [t] ∧
    runConsumerTeardown
        (devm_axi_spi_engine_offload_pwm_trigger_get_optional env).releaseActions =
      [{ t with refcount := t.refcount - 1 }] ∧
    (t.ops ≠ .axiOffloadPwmTriggerOps →
      (devm_axi_spi_engine_offload_pwm_trigger_get_optional env).result =
        .error (-EINVAL)) := by
  by_cases hops : t.ops = .axiOffloadPwmTriggerOps <;>
    simp [devm_axi_spi_engine_offload_pwm_trigger_get_optional,
      runConsumerTeardown, axi_spi_engine_offload_pwm_trigger_release,
      iio_trigger_put, hp, hr, hb, ht, hd, hops]

theorem discovery_registers_release_action_witness :
    (devm_axi_spi_engine_offload_pwm_trigger_get_optional
      ⟨true, .ok 7, .ok (some 3), some ⟨1, .foreignOps, 2⟩, true⟩).releaseActions =
      [⟨1, .foreignOps, 2⟩] ∧
    runConsumerTeardown
        (devm_axi_spi_engine_offload_pwm_trigger_get_optional
          ⟨true, .ok 7, .ok (some 3), some ⟨1, .foreignOps, 2⟩, true⟩).releaseActions =
      [⟨1, .foreignOps, 1⟩] ∧
    ((⟨1, .foreignOps, 2⟩ : IioTrigger).ops ≠ .axiOffloadPwmTriggerOps →
      (devm_axi_spi_engine_offload_pwm_trigger_get_optional
        ⟨true, .ok 7, .ok (some 3), some ⟨1, .foreignOps, 2⟩, true⟩).result =
        .error (-EINVAL)) :=
  discovery_registers_release_action
    ⟨true, .ok 7, .ok (some 3), some ⟨1, .foreignOps, 2⟩, true⟩
    7 3 ⟨1, .foreignOps, 2⟩ rfl rfl rfl rfl rfl

/-- C3: `axi_spi_engine_offload_pwm_trigger_setup` returns `-EINVAL` with the
consumer device untouched when the trigger's ops pointer is foreign;
otherwise it succeeds, sets the hardware-triggered buffered-streaming mode
bits, assigns the identical trigger (reference count incremented) as the
consumer's active trigger, and attaches the trigger's own buffer. -/
theorem setup_attaches_trigger_and_buffer (d : IioDev) (trig : IioTrigger)
    (st : AxiOffloadPwmTriggerSt) :
    (trig.ops ≠ .axiOffloadPwmTriggerOps →
      axi_spi_engine_offload_pwm_trigger_setup d trig st = (d, -EINVAL)) ∧
    (trig.ops = .axiOffloadPwmTriggerOps →
      (axi_spi_engine_offload_pwm_trigger_setup d trig st).2 = 0 ∧
      (axi_spi_engine_offload_pwm_trigger_setup d trig st).1.modes =
        d.modes ||| (INDIO_BUFFER_HARDWARE ||| INDIO_HARDWARE_TRIGGERED) ∧
      (axi_spi_engine_offload_pwm_trigger_setup d trig st).1.trig =
        some (iio_trigger_get trig) ∧
      (iio_trigger_get trig).id = trig.id ∧
      (iio_trigger_get trig).refcount = trig.refcount + 1 ∧
      (axi_spi_engine_offload_pwm_trigger_setup d trig st).1.buffer =
        some st.buffer) := by
  constructor
  · intro h
    simp [axi_spi_engine_offload_pwm_trigger_setup, h]
  · intro h
    simp [axi_spi_engine_offload_pwm_trigger_setup, h,
      iio_device_attach_buffer, iio_trigger_get]

theorem setup_attaches_trigger_and_buffer_witness :
    axi_spi_engine_offload_pwm_trigger_setup ⟨0, none, none⟩
        ⟨2, .foreignOps, 0⟩ ⟨5, ⟨10, 1000000, true⟩⟩ =
      (⟨0, none, none⟩, -EINVAL) ∧
    (axi_spi_engine_offload_pwm_trigger_setup ⟨0, none, none⟩
        ⟨1, .axiOffloadPwmTriggerOps, 0⟩ ⟨5, ⟨10, 1000000, true⟩⟩).2 = 0 ∧
    (axi_spi_engine_offload_pwm_trigger_setup ⟨0, none, none⟩
        ⟨1, .axiOffloadPwmTriggerOps, 0⟩ ⟨5, ⟨10, 1000000, true⟩⟩).1.trig =
      some (iio_trigger_get ⟨1, .axiOffloadPwmTriggerOps, 0⟩) ∧
    (axi_spi_engine_offload_pwm_trigger_setup ⟨0, none, none⟩
        ⟨1, .axiOffloadPwmTriggerOps, 0⟩ ⟨5, ⟨10, 1000000, true⟩⟩).1.buffer =
      some 5 :=
  ⟨(setup_attaches_trigger_and_buffer ⟨0, none, none⟩ ⟨2, .foreignOps, 0⟩
      ⟨5, ⟨10, 1000000, true⟩⟩).1 (by decide),
   ((setup_attaches_trigger_and_buffer ⟨0, none, none⟩
      ⟨1, .axiOffloadPwmTriggerOps, 0⟩ ⟨5, ⟨10, 1000000, true⟩⟩).2 rfl).1,
   ((setup_attaches_trigger_and_buffer ⟨0, none, none⟩
      ⟨1, .axiOffloadPwmTriggerOps, 0⟩ ⟨5, ⟨10, 1000000, true⟩⟩).2 rfl).2.2.1,
   ((setup_attaches_trigger_and_buffer ⟨0, none, none⟩
      ⟨1, .axiOffloadPwmTriggerOps, 0⟩ ⟨5, ⟨10, 1000000, true⟩⟩).2
      rfl).2.2.2.2.2⟩

/-- Ceiling-division characterization of `DIV_ROUND_UP`. -/
theorem DIV_ROUND_UP_bounds (n d : Nat) (hd : d ≠ 0) :
    n ≤ DIV_ROUND_UP n d * d ∧ DIV_ROUND_UP n d * d < n + d := by
  have hd' : 0 < d := Nat.pos_of_ne_zero hd
  unfold DIV_ROUND_UP
  have hdm := Nat.div_add_mod (n + d - 1) d
  have hmod := Nat.mod_lt (n + d - 1) hd'
  rw [Nat.mul_comm]
  generalize hq : d * ((n + d - 1) / d) = q at hdm ⊢
  omega

/-- C4: for every nonzero requested frequency, `set_samp_freq` issues a single
`pwm_config` call with `period_ns = DIV_ROUND_UP(NSEC_PER_SEC, hz)` (the
ceiling of 1e9 / hz) and the fixed duty 10 ns; the duty after a second set
with any other valid frequency is the same constant. -/
theorem set_samp_freq_period_ceil_duty_fixed (st : AxiOffloadPwmTriggerSt)
    (hz : Nat) (h : hz ≠ 0) :
    ∃ st1, axi_spi_engine_offload_set_samp_freq st hz = .ok st1 ∧
      st1.pwm = pwm_config st.pwm 10 (DIV_ROUND_UP NSEC_PER_SEC hz) ∧
      st1.pwm.dutyNs = 10 ∧
      st1.pwm.periodNs = DIV_ROUND_UP NSEC_PER_SEC hz ∧
      NSEC_PER_SEC ≤ st1.pwm.periodNs * hz ∧
      st1.pwm.periodNs * hz < NSEC_PER_SEC + hz ∧
      ∀ hz2 st2, hz2 ≠ 0 →
        axi_spi_engine_offload_set_samp_freq st1 hz2 = .ok st2 →
        st2.pwm.dutyNs = st1.pwm.dutyNs := by
  have hbounds := DIV_ROUND_UP_bounds NSEC_PER_SEC hz h
  refine ⟨{ st with pwm := pwm_config st.pwm 10 (DIV_ROUND_UP NSEC_PER_SEC hz) },
    ?_, rfl, rfl, rfl, hbounds.1, hbounds.2, ?_⟩
  · simp [axi_spi_engine_offload_set_samp_freq, h]
  · intro hz2 st2 h2 hset2
    simp [axi_spi_engine_offload_set_samp_freq, h2] at hset2
    simp [← hset2, pwm_config]

theorem set_samp_freq_period_ceil_duty_fixed_witness :
    ∃ st1, axi_spi_engine_offload_set_samp_freq ⟨5, ⟨0, 0, false⟩⟩ 1000 =
        .ok st1 ∧
      st1.pwm = pwm_config ⟨0, 0, false⟩ 10 (DIV_ROUND_UP NSEC_PER_SEC 1000) ∧
      st1.pwm.dutyNs = 10 ∧
      st1.pwm.periodNs = DIV_ROUND_UP NSEC_PER_SEC 1000 ∧
      NSEC_PER_SEC ≤ st1.pwm.periodNs * 1000 ∧
      st1.pwm.periodNs * 1000 < NSEC_PER_SEC + 1000 ∧
      ∀ hz2 st2, hz2 ≠ 0 →
        axi_spi_engine_offload_set_samp_freq st1 hz2 = .ok st2 →
        st2.pwm.dutyNs = st1.pwm.dutyNs :=
  set_samp_freq_period_ceil_duty_fixed ⟨5, ⟨0, 0, false⟩⟩ 1000 (by decide)

/-- For frequencies up to 10000 Hz the rounded read-back of the ceiling
period reproduces the requested frequency exactly. -/
theorem rate_round_trip_exact (f : Nat) (h1 : 1 ≤ f) (h2 : f ≤ 10000) :
    DIV_ROUND_CLOSEST_ULL NSEC_PER_SEC (DIV_ROUND_UP NSEC_PER_SEC f) = f := by
  have hf : 0 < f := h1
  unfold DIV_ROUND_CLOSEST_ULL DIV_ROUND_UP NSEC_PER_SEC
  set p := (1000000000 + f - 1) / f with hpdef
  have hdm := Nat.div_add_mod (1000000000 + f - 1) f
  have hmod := Nat.mod_lt (1000000000 + f - 1) hf
  rw [← hpdef] at hdm
  have hq : f * p ≤ 10000 * p := Nat.mul_le_mul_right p h2
  generalize hq' : f * p = q at hdm hq
  have hdm2 := Nat.div_add_mod p 2
  have hmod2 := Nat.mod_lt p (by omega : (0 : Nat) < 2)
  set h := p / 2 with hhdef
  have hN : 1000000000 ≤ q := by omega
  have hub : q ≤ 1000000000 + f - 1 := by omega
  have hp5 : 100000 ≤ p := by omega
  have goal_le : f * p ≤ 1000000000 + h := by rw [hq']; omega
  have goal_lt : 1000000000 + h < (f + 1) * p := by
    have hfp : (f + 1) * p = f * p + p := by ring
    rw [hfp, hq']; omega
  exact Nat.div_eq_of_lt_le goal_le goal_lt

/-- C5: `get_rate` returns 0 when the PWM period is 0 and
`DIV_ROUND_CLOSEST_ULL(NSEC_PER_SEC, period_ns)` otherwise; for every
frequency f in [1, 10000], setting f and reading back yields
`round(1e9 / ceil(1e9 / f))`, within one Hz of f. -/
theorem get_rate_round_trip :
    (∀ st : AxiOffloadPwmTriggerSt, pwm_get_period st.pwm = 0 →
      axi_spi_engine_offload_pwm_trigger_get_rate st = 0) ∧
    (∀ st : AxiOffloadPwmTriggerSt, pwm_get_period st.pwm ≠ 0 →
      axi_spi_engine_offload_pwm_trigger_get_rate st =
        DIV_ROUND_CLOSEST_ULL NSEC_PER_SEC (pwm_get_period st.pwm)) ∧
    (∀ (st st1 : AxiOffloadPwmTriggerSt) (f : Nat), 1 ≤ f → f ≤ 10000 →
      axi_spi_engine_offload_set_samp_freq st f = .ok st1 →
      axi_spi_engine_offload_pwm_trigger_get_rate st1 =
        DIV_ROUND_CLOSEST_ULL NSEC_PER_SEC (DIV_ROUND_UP NSEC_PER_SEC f) ∧
      f - 1 ≤ axi_spi_engine_offload_pwm_trigger_get_rate st1 ∧
      axi_spi_engine_offload_pwm_trigger_get_rate st1 ≤ f + 1) := by
  refine ⟨?_, ?_, ?_⟩
  · intro st h
    simp [axi_spi_engine_offload_pwm_trigger_get_rate, h]
  · intro st h
    simp [axi_spi_engine_offload_pwm_trigger_get_rate, h]
  · intro st st1 f h1 h2 hset
    have hf0 : f ≠ 0 := by omega
    unfold axi_spi_engine_offload_set_samp_freq at hset
    rw [if_neg hf0] at hset
    injection hset with hst1
    subst hst1
    have hp0 : DIV_ROUND_UP NSEC_PER_SEC f ≠ 0 := by
      unfold DIV_ROUND_UP NSEC_PER_SEC
      have hle : 1 ≤ (1000000000 + f - 1) / f :=
        (Nat.le_div_iff_mul_le h1).mpr (by omega)
      omega
    have heq : axi_spi_engine_offload_pwm_trigger_get_rate
        { st with pwm := pwm_config st.pwm 10 (DIV_ROUND_UP NSEC_PER_SEC f) } =
        DIV_ROUND_CLOSEST_ULL NSEC_PER_SEC (DIV_ROUND_UP NSEC_PER_SEC f) := by
      simp [axi_spi_engine_offload_pwm_trigger_get_rate, pwm_get_period,
        pwm_config, hp0]
    rw [heq, rate_round_trip_exact f h1 h2]
    omega

theorem get_rate_round_trip_witness :
    axi_spi_engine_offload_pwm_trigger_get_rate ⟨0, ⟨0, 0, false⟩⟩ = 0 ∧
    axi_spi_engine_offload_pwm_trigger_get_rate ⟨0, ⟨10, 1000000, true⟩⟩ =
      DIV_ROUND_CLOSEST_ULL NSEC_PER_SEC 1000000 ∧
    (axi_spi_engine_offload_pwm_trigger_get_rate ⟨0, ⟨10, 2000000, false⟩⟩ =
       DIV_ROUND_CLOSEST_ULL NSEC_PER_SEC (DIV_ROUND_UP NSEC_PER_SEC 500) ∧
     500 - 1 ≤ axi_spi_engine_offload_pwm_trigger_get_rate ⟨0, ⟨10, 2000000, false⟩⟩ ∧
     axi_spi_engine_offload_pwm_trigger_get_rate ⟨0, ⟨10, 2000000, false⟩⟩ ≤
       500 + 1) :=
  ⟨get_rate_round_trip.1 ⟨0, ⟨0, 0, false⟩⟩ rfl,
   get_rate_round_trip.2.1 ⟨0, ⟨10, 1000000, true⟩⟩ (by decide),
   get_rate_round_trip.2.2 ⟨0, ⟨0, 0, false⟩⟩ ⟨0, ⟨10, 2000000, false⟩⟩ 500
     (by decide) (by decide) rfl⟩

/-- `kstrtou32` only fails with a negative errno. -/
theorem kstrtou32_error_neg (s : List Char) (e : Int)
    (h : kstrtou32 s = .error e) : e < 0 := by
  simp only [kstrtou32] at h
  split_ifs at h <;> simp only [Except.error.injEq] at h <;>
    simp [← h, EINVAL, ERANGE]

/-- C6: a rate-attribute write of a non-numeric payload or of the integer 0
fails (with `-EINVAL` for 0) and never reaches `pwm_config`: the driver
state — period and duty — is unchanged and a subsequent `get_rate` read
returns the prior observed frequency. -/
theorem store_invalid_input_preserves_state (st : AxiOffloadPwmTriggerSt)
    (buf : List Char)
    (h : (∃ e, kstrtou32 buf = .error e) ∨ kstrtou32 buf = .ok 0) :
    (∃ e, e < 0 ∧ sampling_frequency_store st buf = (.error e, st)) ∧
    (kstrtou32 buf = .ok 0 →
      sampling_frequency_store st buf = (.error (-EINVAL), st)) ∧
    axi_spi_engine_offload_pwm_trigger_get_rate
        (sampling_frequency_store st buf).2 =
      axi_spi_engine_offload_pwm_trigger_get_rate st := by
  rcases h with ⟨e, he⟩ | h0
  · refine ⟨⟨e, kstrtou32_error_neg buf e he, ?_⟩, ?_, ?_⟩
    · simp [sampling_frequency_store, he]
    · intro h0
      rw [he] at h0
      exact absurd h0 (by simp)
    · simp [sampling_frequency_store, he]
  · refine ⟨⟨-EINVAL, by simp [EINVAL], ?_⟩, fun _ => ?_, ?_⟩ <;>
      simp [sampling_frequency_store, h0, axi_spi_engine_offload_set_samp_freq]

theorem store_invalid_input_preserves_state_witness :
    ((∃ e, e < 0 ∧ sampling_frequency_store ⟨0, ⟨10, 1000000, true⟩⟩ (['0']) =
        (.error e, ⟨0, ⟨10, 1000000, true⟩⟩)) ∧
     (kstrtou32 ['0'] = .ok 0 →
       sampling_frequency_store ⟨0, ⟨10, 1000000, true⟩⟩ (['0']) =
         (.error (-EINVAL), ⟨0, ⟨10, 1000000, true⟩⟩)) ∧
     axi_spi_engine_offload_pwm_trigger_get_rate
         (sampling_frequency_store ⟨0, ⟨10, 1000000, true⟩⟩ (['0'])).2 =
       axi_spi_engine_offload_pwm_trigger_get_rate ⟨0, ⟨10, 1000000, true⟩⟩) ∧
    ((∃ e, e < 0 ∧ sampling_frequency_store ⟨0, ⟨10, 1000000, true⟩⟩ (['x']) =
        (.error e, ⟨0, ⟨10, 1000000, true⟩⟩)) ∧
     (kstrtou32 ['x'] = .ok 0 →
       sampling_frequency_store ⟨0, ⟨10, 1000000, true⟩⟩ (['x']) =
         (.error (-EINVAL), ⟨0, ⟨10, 1000000, true⟩⟩)) ∧
     axi_spi_engine_offload_pwm_trigger_get_rate
         (sampling_frequency_store ⟨0, ⟨10, 1000000, true⟩⟩ (['x'])).2 =
       axi_spi_engine_offload_pwm_trigger_get_rate ⟨0, ⟨10, 1000000, true⟩⟩) :=
  ⟨store_invalid_input_preserves_state ⟨0, ⟨10, 1000000, true⟩⟩ (['0'])
     (Or.inr rfl),
   store_invalid_input_preserves_state ⟨0, ⟨10, 1000000, true⟩⟩ (['x'])
     (Or.inl ⟨-EINVAL, rfl⟩)⟩

/-- C10: every successful probe configures the PWM to the default 1000 Hz
(period 1000000 ns, duty 10 ns), enables it, and registers the trigger; the
trigger is registered only when configuration and enabling both succeeded,
and the default read-back rate for an attached consumer is 1000 Hz. -/
theorem probe_success_default_rate (env : ProbeEnv)
    (hpwm : ∀ e, env.pwmGet = .error e → e < 0)
    (hbuf : ∀ e, env.bufferAlloc = .error e → e < 0) :
    ((axi_offload_pwm_trigger_probe env).result = 0 →
      ∃ buf, (axi_offload_pwm_trigger_probe env).st =
          some ⟨buf, ⟨10, 1000000, true⟩⟩ ∧
        (axi_offload_pwm_trigger_probe env).triggerRegistered = true ∧
        axi_spi_engine_offload_pwm_trigger_get_rate ⟨buf, ⟨10, 1000000, true⟩⟩ =
          1000) ∧
    ((axi_offload_pwm_trigger_probe env).triggerRegistered = true →
      ∃ buf, (axi_offload_pwm_trigger_probe env).st =
        some ⟨buf, ⟨10, 1000000, true⟩⟩) := by
  have hrate : ∀ buf : Nat,
      axi_spi_engine_offload_pwm_trigger_get_rate ⟨buf, ⟨10, 1000000, true⟩⟩ =
        1000 := by
    intro buf
    rw [axi_spi_engine_offload_pwm_trigger_get_rate]
    norm_num [pwm_get_period, DIV_ROUND_CLOSEST_ULL, NSEC_PER_SEC]
  obtain ⟨kz, pg, ba, ta, per, da, rr⟩ := env
  cases kz with
  | false =>
    have heq : axi_offload_pwm_trigger_probe ⟨false, pg, ba, ta, per, da, rr⟩ =
        ⟨-ENOMEM, none, false⟩ := rfl
    rw [heq]
    dsimp only
    exact ⟨fun h => absurd h (by decide), fun h => absurd h (by decide)⟩
  | true =>
    cases pg with
    | error e =>
      have hneg : e < 0 := hpwm e rfl
      have heq : axi_offload_pwm_trigger_probe ⟨true, .error e, ba, ta, per, da, rr⟩ =
          ⟨e, none, false⟩ := rfl
      rw [heq]
      dsimp only
      exact ⟨fun h => absurd h (by omega), fun h => absurd h (by decide)⟩
    | ok u =>
      cases ba with
      | error e =>
        have hneg : e < 0 := hbuf e rfl
        have heq : axi_offload_pwm_trigger_probe
            ⟨true, .ok u, .error e, ta, per, da, rr⟩ =
            ⟨e, some ⟨0, ⟨0, 0, false⟩⟩, false⟩ := rfl
        rw [heq]
        dsimp only
        exact ⟨fun h => absurd h (by omega), fun h => absurd h (by decide)⟩
      | ok buf =>
        have hset : axi_spi_engine_offload_set_samp_freq ⟨buf, ⟨0, 0, false⟩⟩
            1000 = .ok ⟨buf, ⟨10, 1000000, false⟩⟩ := rfl
        cases ta with
        | false =>
          have heq : axi_offload_pwm_trigger_probe
              ⟨true, .ok u, .ok buf, false, per, da, rr⟩ =
              ⟨-ENOMEM, some ⟨buf, ⟨0, 0, false⟩⟩, false⟩ := rfl
          rw [heq]
          dsimp only
          exact ⟨fun h => absurd h (by decide), fun h => absurd h (by decide)⟩
        | true =>
          by_cases hper : per = 0
          · subst hper
            cases da with
            | false =>
              have heq : axi_offload_pwm_trigger_probe
                  ⟨true, .ok u, .ok buf, true, 0, false, rr⟩ =
                  ⟨-ENOMEM, some ⟨buf, ⟨10, 1000000, true⟩⟩, false⟩ := rfl
              rw [heq]
              dsimp only
              exact ⟨fun h => absurd h (by decide), fun h => absurd h (by decide)⟩
            | true =>
              have heq : axi_offload_pwm_trigger_probe
                  ⟨true, .ok u, .ok buf, true, 0, true, rr⟩ =
                  ⟨rr, some ⟨buf, ⟨10, 1000000, true⟩⟩, rr == 0⟩ := rfl
              rw [heq]
              dsimp only
              constructor
              · intro hres
                exact ⟨buf, rfl, by simp [hres], hrate buf⟩
              · intro _
                exact ⟨buf, rfl⟩
          · have heq : axi_offload_pwm_trigger_probe
                ⟨true, .ok u, .ok buf, true, per, da, rr⟩ =
                ⟨per, some ⟨buf, ⟨10, 1000000, false⟩⟩, false⟩ := by
              simp only [axi_offload_pwm_trigger_probe, hset]
              rw [if_pos hper]
              rfl
            rw [heq]
            dsimp only
            exact ⟨fun h => absurd h hper, fun h => absurd h (by decide)⟩

theorem probe_success_default_rate_witness :
    ∃ buf, (axi_offload_pwm_trigger_probe
        ⟨true, .ok (), .ok 5, true, 0, true, 0⟩).st =
        some ⟨buf, ⟨10, 1000000, true⟩⟩ ∧
      (axi_offload_pwm_trigger_probe
        ⟨true, .ok (), .ok 5, true, 0, true, 0⟩).triggerRegistered = true ∧
      axi_spi_engine_offload_pwm_trigger_get_rate ⟨buf, ⟨10, 1000000, true⟩⟩ =
        1000 :=
  (probe_success_default_rate ⟨true, .ok (), .ok 5, true, 0, true, 0⟩
    (fun _ h => nomatch h) (fun _ h => nomatch h)).1 rfl

end AxiOffloadPwm
